import Mathlib

/-!
# Verification of the MDR interaction/simulation core

A shallow embedding, in Lean 4, of the interaction core of the MDR
touch-driven arcade game: the world/viewport model (`WorldSystem.ts`), the
spatial index, the cursor physics and lasso handling of
`MDRTerminalGrid.tsx`, and the gesture handling of `MDRInterface.tsx`.

Conventions of the embedding:
* JavaScript numbers are modelled as exact rationals (`ℚ`); every JS float is
  a dyadic rational, and no claim under study hinges on rounding.
* `Math.sqrt` results are not rational, so wherever the source compares a
  computed speed or distance against a constant threshold, the embedding
  compares the squared quantity against the squared threshold (order is
  preserved, both sides being nonnegative); wherever the source divides by a
  computed distance, the embedding takes the distance as an explicit argument
  carried with its defining property `dist² = dx² + dy² ∧ 0 ≤ dist`.
* `Math.sin`, `Math.cos` and `Math.PI` are taken as an abstract, unspecified
  interpretation (`HostMath`): the host's actual implementations are fixed
  functions from floats to floats, here arbitrary functions `ℚ → ℚ`.
* React state setters become explicit state passing; a `setTimeout` becomes a
  recorded pending fire time consumed by an explicit clock.
-/

namespace MDR

/-- A 2-D point (also used for vectors), the `{x, y}` pair of `src/types`. -/
structure Point where
  x : ℚ
  y : ℚ
deriving Repr, DecidableEq

/-- A rectangle `{x, y, width, height}` of `src/types`. -/
structure Rectangle where
  x : ℚ
  y : ℚ
  width : ℚ
  height : ℚ
deriving Repr, DecidableEq

/-! ## World/Viewport model (`src/systems/WorldSystem.ts`) -/

/-- `GameConfig.world.gridSize.cols`. -/
def worldGridCols : ℚ := 50

/-- `GameConfig.world.gridSize.rows`. -/
def worldGridRows : ℚ := 80

/-- `GameConfig.world.cellSize`. -/
def cellSize : ℚ := 24

/-- `GameConfig.world.cellSpacing`. -/
def cellSpacing : ℚ := 2

/-- `LayoutConstants.gridMargin`, the `viewportMargin` of `WorldSystem`. -/
def viewportMargin : ℚ := 16

/-- `WorldSystem.getWorldWidth`. -/
def getWorldWidth : ℚ := worldGridCols * (cellSize + cellSpacing)

/-- `WorldSystem.getWorldHeight`. -/
def getWorldHeight : ℚ := worldGridRows * (cellSize + cellSpacing)

/-- `WorldSystem.constrainToWorldBounds`: clamps the viewport origin to
`[-margin, worldSize - viewportSize + margin]` per axis, keeping the size. -/
def constrainToWorldBounds (viewport : Rectangle) : Rectangle :=
  { x := max (-viewportMargin)
        (min (getWorldWidth - viewport.width + viewportMargin) viewport.x)
    y := max (-viewportMargin)
        (min (getWorldHeight - viewport.height + viewportMargin) viewport.y)
    width := viewport.width
    height := viewport.height }

/-- `WorldSystem.panViewport`: translate the viewport by the pan delta, then
constrain it to the world bounds. -/
def panViewport (viewport : Rectangle) (deltaX deltaY : ℚ) : Rectangle :=
  constrainToWorldBounds
    { viewport with x := viewport.x + deltaX, y := viewport.y + deltaY }

/-- C3 counterexample: with a viewport wider than the world plus both margins
(width 2000 > 1300 + 2·16), the clamp's lower bound wins and the right edge
overshoots world width + margin: `panViewport` leaves `x + width = 1984`,
above `getWorldWidth + viewportMargin = 1316`. -/
theorem C3_wide_viewport_escapes_bound :
    ¬ ((panViewport ⟨0, 0, 2000, 100⟩ 0 0).x + (panViewport ⟨0, 0, 2000, 100⟩ 0 0).width
        ≤ getWorldWidth + viewportMargin) := by
  norm_num [panViewport, constrainToWorldBounds, getWorldWidth, getWorldHeight,
    viewportMargin, worldGridCols, worldGridRows, cellSize, cellSpacing,
    max_def, min_def]

/-- C3 (amended): provided the viewport is no larger than the world extended
by the margin on both sides (`width ≤ worldWidth + 2·margin`, and likewise for
height), every pan leaves the viewport satisfying `origin ≥ -margin` and
`origin + size ≤ worldSize + margin` independently on each axis. -/
theorem C3_viewport_clamp_invariant (vp : Rectangle) (dx dy : ℚ)
    (hw : vp.width ≤ getWorldWidth + 2 * viewportMargin)
    (hh : vp.height ≤ getWorldHeight + 2 * viewportMargin) :
    -viewportMargin ≤ (panViewport vp dx dy).x ∧
    (panViewport vp dx dy).x + (panViewport vp dx dy).width
      ≤ getWorldWidth + viewportMargin ∧
    -viewportMargin ≤ (panViewport vp dx dy).y ∧
    (panViewport vp dx dy).y + (panViewport vp dx dy).height
      ≤ getWorldHeight + viewportMargin := by
  simp only [panViewport, constrainToWorldBounds]
  refine ⟨le_max_left _ _, ?_, le_max_left _ _, ?_⟩
  · have h1 : max (-viewportMargin)
        (min (getWorldWidth - vp.width + viewportMargin) (vp.x + dx))
        ≤ getWorldWidth - vp.width + viewportMargin :=
      max_le (by linarith) (min_le_left _ _)
    linarith
  · have h1 : max (-viewportMargin)
        (min (getWorldHeight - vp.height + viewportMargin) (vp.y + dy))
        ≤ getWorldHeight - vp.height + viewportMargin :=
      max_le (by linarith) (min_le_left _ _)
    linarith

/-- C3 witness: the amended invariant evaluated at a 500×500 viewport pushed
far past the world's right edge. -/
theorem C3_viewport_clamp_witness :
    -viewportMargin ≤ (panViewport ⟨0, 0, 500, 500⟩ 1000000 0).x ∧
    (panViewport ⟨0, 0, 500, 500⟩ 1000000 0).x + (panViewport ⟨0, 0, 500, 500⟩ 1000000 0).width
      ≤ getWorldWidth + viewportMargin ∧
    -viewportMargin ≤ (panViewport ⟨0, 0, 500, 500⟩ 1000000 0).y ∧
    (panViewport ⟨0, 0, 500, 500⟩ 1000000 0).y + (panViewport ⟨0, 0, 500, 500⟩ 1000000 0).height
      ≤ getWorldHeight + viewportMargin :=
  C3_viewport_clamp_invariant ⟨0, 0, 500, 500⟩ 1000000 0
    (by norm_num [getWorldWidth, viewportMargin, worldGridCols, cellSize, cellSpacing])
    (by norm_num [getWorldHeight, viewportMargin, worldGridRows, cellSize, cellSpacing])

/-- C10: `panViewport` changes only the viewport origin — the clamped result
keeps the width and height of the starting viewport, for every pan delta. -/
theorem C10_pan_preserves_viewport_size (vp : Rectangle) (dx dy : ℚ) :
    (panViewport vp dx dy).width = vp.width ∧
    (panViewport vp dx dy).height = vp.height :=
  ⟨rfl, rfl⟩

/-! ## Trackball momentum (`src/components/MDRTerminalGrid.tsx`,
`onPanResponderRelease` exploration branch and `applyMomentum`) -/

/-- Squared magnitude of a velocity vector; the source works with
`Math.sqrt(x*x + y*y)` but only ever compares it against nonnegative
thresholds, so the embedding compares squares. -/
def magSq (v : Point) : ℚ := v.x ^ 2 + v.y ^ 2

/-- The speed-dependent friction coefficient of `applyMomentum`: the source
compares `currentSpeed = Math.sqrt(x²+y²)` against 300 / 150 / 75; here the
squared speed is compared against `300²` / `150²` / `75²`. -/
def momentumFriction (speedSq : ℚ) : ℚ :=
  if speedSq > 90000 then 0.985
  else if speedSq > 22500 then 0.975
  else if speedSq > 5625 then 0.965
  else 0.93

/-- One tick of `applyMomentum`, restricted to the velocity state: multiply
the velocity by the speed-dependent friction, and snap to `{0, 0}` once both
components fall below `0.02` in absolute value. -/
def momentumStep (v : Point) : Point :=
  let friction := momentumFriction (magSq v)
  let newVelX := v.x * friction
  let newVelY := v.y * friction
  if |newVelX| < 0.02 ∧ |newVelY| < 0.02 then ⟨0, 0⟩ else ⟨newVelX, newVelY⟩

lemma momentumFriction_pos (s : ℚ) : 0 < momentumFriction s := by
  unfold momentumFriction; split_ifs <;> norm_num

lemma momentumFriction_le (s : ℚ) : momentumFriction s ≤ 0.985 := by
  unfold momentumFriction; split_ifs <;> norm_num

lemma magSq_nonneg (v : Point) : 0 ≤ magSq v := by
  unfold magSq; positivity

/-- Each decay tick shrinks the squared speed by at least the factor
`0.985²`. -/
lemma magSq_momentumStep_le (v : Point) :
    magSq (momentumStep v) ≤ 0.985 ^ 2 * magSq v := by
  simp only [momentumStep]
  split_ifs with h
  · have := magSq_nonneg v
    simp only [magSq]
    nlinarith
  · have h1 := momentumFriction_pos (magSq v)
    have h2 := momentumFriction_le (magSq v)
    have hf2 : momentumFriction (magSq v) ^ 2 ≤ (0.985 : ℚ) ^ 2 := by nlinarith
    have hm := magSq_nonneg v
    simp only [magSq] at *
    nlinarith [sq_nonneg v.x, sq_nonneg v.y]

/-- A velocity whose squared magnitude is already below `0.02²` snaps to zero
on the next tick. -/
lemma momentumStep_of_small (v : Point) (h : magSq v < 0.0004) :
    momentumStep v = ⟨0, 0⟩ := by
  have h1 := momentumFriction_pos (magSq v)
  have h2 := momentumFriction_le (magSq v)
  have hf1 : momentumFriction (magSq v) ^ 2 ≤ 1 := by nlinarith
  have hx2 : (v.x * momentumFriction (magSq v)) ^ 2 < 0.0004 := by
    have hb : v.x ^ 2 ≤ magSq v := by simp only [magSq]; nlinarith [sq_nonneg v.y]
    have e : (v.x * momentumFriction (magSq v)) ^ 2
        = v.x ^ 2 * momentumFriction (magSq v) ^ 2 := by ring
    rw [e]
    calc v.x ^ 2 * momentumFriction (magSq v) ^ 2
        ≤ v.x ^ 2 * 1 := mul_le_mul_of_nonneg_left hf1 (sq_nonneg v.x)
      _ < 0.0004 := by linarith
  have hy2 : (v.y * momentumFriction (magSq v)) ^ 2 < 0.0004 := by
    have hb : v.y ^ 2 ≤ magSq v := by simp only [magSq]; nlinarith [sq_nonneg v.x]
    have e : (v.y * momentumFriction (magSq v)) ^ 2
        = v.y ^ 2 * momentumFriction (magSq v) ^ 2 := by ring
    rw [e]
    calc v.y ^ 2 * momentumFriction (magSq v) ^ 2
        ≤ v.y ^ 2 * 1 := mul_le_mul_of_nonneg_left hf1 (sq_nonneg v.y)
      _ < 0.0004 := by linarith
  have hx : |v.x * momentumFriction (magSq v)| < 0.02 := by
    nlinarith [abs_nonneg (v.x * momentumFriction (magSq v)),
      sq_abs (v.x * momentumFriction (magSq v))]
  have hy : |v.y * momentumFriction (magSq v)| < 0.02 := by
    nlinarith [abs_nonneg (v.y * momentumFriction (magSq v)),
      sq_abs (v.y * momentumFriction (magSq v))]
  unfold momentumStep
  rw [if_pos ⟨hx, hy⟩]

lemma magSq_iterate_le (v : Point) (n : ℕ) :
    magSq (momentumStep^[n] v) ≤ ((0.985 : ℚ) ^ 2) ^ n * magSq v := by
  induction n with
  | zero => simp
  | succ n ih =>
    rw [Function.iterate_succ_apply']
    calc magSq (momentumStep (momentumStep^[n] v))
        ≤ 0.985 ^ 2 * magSq (momentumStep^[n] v) := magSq_momentumStep_le _
      _ ≤ 0.985 ^ 2 * (((0.985 : ℚ) ^ 2) ^ n * magSq v) := by nlinarith
      _ = ((0.985 : ℚ) ^ 2) ^ (n + 1) * magSq v := by ring

/-- C4: for every release velocity, the squared speed along successive
momentum-decay ticks is non-increasing (equivalently, the speed itself is,
both being nonnegative), and after finitely many ticks the velocity is
exactly `{x: 0, y: 0}`. -/
theorem C4_momentum_decay_monotone_terminates (v : Point) :
    (∀ n : ℕ, magSq (momentumStep^[n + 1] v) ≤ magSq (momentumStep^[n] v)) ∧
    ∃ N : ℕ, momentumStep^[N] v = ⟨0, 0⟩ := by
  constructor
  · intro n
    rw [Function.iterate_succ_apply']
    have h := magSq_momentumStep_le (momentumStep^[n] v)
    have hm := magSq_nonneg (momentumStep^[n] v)
    nlinarith
  · have hm := magSq_nonneg v
    have hm1 : (0 : ℚ) < magSq v + 1 := by linarith
    obtain ⟨n, hn⟩ : ∃ n : ℕ, ((0.985 : ℚ) ^ 2) ^ n < 0.0004 / (magSq v + 1) :=
      exists_pow_lt_of_lt_one (by positivity) (by norm_num)
    refine ⟨n + 1, ?_⟩
    rw [Function.iterate_succ_apply']
    apply momentumStep_of_small
    have h1 := magSq_iterate_le v n
    have h2 : ((0.985 : ℚ) ^ 2) ^ n * (magSq v + 1) < 0.0004 := by
      have := (lt_div_iff₀ hm1).mp hn
      linarith
    have h3 : (0 : ℚ) ≤ ((0.985 : ℚ) ^ 2) ^ n := by positivity
    nlinarith

/-- The velocity written on touch release in exploration mode
(`onPanResponderRelease`, non-lasso branch): the base momentum factor is
boosted 4× / 2.5× / 1.8× according to the release speed (compared squared
against `1000²` / `500²` / `200²`), and the release velocity is scaled by the
resulting multiplier. -/
def trackballInitialVelocity (momentum : ℚ) (releaseVelX releaseVelY : ℚ) : Point :=
  let releaseSpeedSq := releaseVelX ^ 2 + releaseVelY ^ 2
  let trackballMultiplier :=
    if releaseSpeedSq > 1000000 then momentum * 4
    else if releaseSpeedSq > 250000 then momentum * 2.5
    else if releaseSpeedSq > 40000 then momentum * 1.8
    else momentum
  ⟨releaseVelX * trackballMultiplier, releaseVelY * trackballMultiplier⟩

/-- The boost stated by the spec: 4× above the high threshold (release speed
1000), 2.5× above the medium threshold (500), 1.8× above the low threshold
(200), else 1×; thresholds compared on squared speeds. -/
def specFlickBoost (releaseSpeedSq : ℚ) : ℚ :=
  if releaseSpeedSq > 1000000 then 4
  else if releaseSpeedSq > 250000 then 2.5
  else if releaseSpeedSq > 40000 then 1.8
  else 1

/-- C5: the initial momentum velocity on release equals the release velocity
times the configured base momentum factor times exactly the spec's
speed-selected boost (4 / 2.5 / 1.8 / 1). -/
theorem C5_release_momentum_multiplier (momentum releaseVelX releaseVelY : ℚ) :
    trackballInitialVelocity momentum releaseVelX releaseVelY =
      ⟨releaseVelX * (momentum * specFlickBoost (releaseVelX ^ 2 + releaseVelY ^ 2)),
       releaseVelY * (momentum * specFlickBoost (releaseVelX ^ 2 + releaseVelY ^ 2))⟩ := by
  simp only [trackballInitialVelocity, specFlickBoost]
  split_ifs <;> exact Point.mk.injEq .. ▸ ⟨by ring, by ring⟩

/-! ## Gesture handling of `src/components/MDRInterface.tsx`

`onPanResponderGrant` schedules `setTimeout(() => setCursorMode('pinpoint'),
325)` and stores no handle; `onPanResponderRelease` runs
`setCursorMode('exploration')` and clears no timer.  The embedding records
the pending fire time (milliseconds, `ℤ`, as `Date.now()` deltas are) and an
explicit clock delivers due timers. -/

/-- The two values of `cursor.mode` in the game store. -/
inductive CursorMode where
  | exploration
  | pinpoint
deriving Repr, DecidableEq

/-- The state the `MDRInterface` pan responder acts on: the store's cursor
mode and the pending (never-cancelled) pinpoint `setTimeout` fire times. -/
structure IfaceState where
  mode : CursorMode
  pendingTimers : List ℤ
deriving Repr, DecidableEq

/-- Initial state: the store starts in exploration mode with no timer. -/
def initIface : IfaceState := ⟨CursorMode.exploration, []⟩

/-- `onPanResponderGrant` at time `t`: schedule `setCursorMode('pinpoint')`
for `t + 325`; nothing else changes and no handle is kept. -/
def ifaceGrant (t : ℤ) (s : IfaceState) : IfaceState :=
  { s with pendingTimers := s.pendingTimers ++ [t + 325] }

/-- `onPanResponderRelease`: `setCursorMode('exploration')`.  The pending
timer list is untouched — the source never calls `clearTimeout`. -/
def ifaceRelease (s : IfaceState) : IfaceState :=
  { s with mode := CursorMode.exploration }

/-- The host clock at time `t`: every scheduled timeout whose fire time has
passed runs its callback `setCursorMode('pinpoint')` and is discharged. -/
def fireDueTimers (t : ℤ) (s : IfaceState) : IfaceState :=
  { mode := if s.pendingTimers.any (fun tf => tf ≤ t) then CursorMode.pinpoint else s.mode
    pendingTimers := s.pendingTimers.filter (fun tf => t < tf) }

/-- The cursor mode observed at time `t ≥ 50` after the scripted tap
[touch-down at 0, touch-up at 50]: deliver due timers up to the release,
release, then let the clock advance to `t`. -/
def modeAfterTap (t : ℤ) : CursorMode :=
  (fireDueTimers t (ifaceRelease (fireDueTimers 50 (ifaceGrant 0 initIface)))).mode

/-- C2: the scripted tap [down@0, up@50] — released well before the ≈300 ms
hold threshold — leaves the cursor in Exploration just after the release, but
at time 325 the never-cancelled `setTimeout` from the touch-down fires and
switches the mode to Pinpoint: the claim that such a tap never causes a later
transition into pinpoint mode fails on the code. -/
theorem C2_tap_still_enters_pinpoint :
    modeAfterTap 100 = CursorMode.exploration ∧
    modeAfterTap 325 = CursorMode.pinpoint ∧
    modeAfterTap 350 = CursorMode.pinpoint := by
  decide

/-! ## Lasso release (`src/components/MDRTerminalGrid.tsx`,
`onPanResponderRelease`, `isLassoMode` branch) -/

/-- A number entity, restricted to the fields the capture claims are about:
its stable `id` and its authoritative `worldPosition`. -/
structure NumberEntity where
  id : String
  worldPosition : Point
deriving Repr, DecidableEq

/-- Modelled from the spec: the Geometry Kernel's `pointInPolygon` is not
present under `src/` (only the design documents declare its interface), so
this follows §4.1's contract word for word: an even-odd ray-casting test over
the closed polygon's edges (each vertex paired with its predecessor,
wrapping around). -/
def pointInPolygon (p : Point) (polygon : List Point) : Bool :=
  (List.range polygon.length).foldl
    (fun inside i =>
      let vi := polygon.getD i ⟨0, 0⟩
      let vj := polygon.getD ((i + polygon.length - 1) % polygon.length) ⟨0, 0⟩
      if ((vi.y > p.y) ≠ (vj.y > p.y)) ∧
          p.x < (vj.x - vi.x) * (p.y - vi.y) / (vj.y - vi.y) + vi.x
      then !inside else inside)
    false

/-- The component state written by the `isLassoMode` branch of
`onPanResponderRelease`. -/
structure LassoReleaseResult where
  isLassoMode : Bool
  cursorMode : CursorMode
  lassoPoints : List Point
  capturedNumbers : List String
deriving Repr, DecidableEq

/-- The `isLassoMode` branch of `onPanResponderRelease`: it runs
`setIsLassoMode(false)`, `setCursorMode('exploration')`, `setLassoPoints([])`
and nothing else — the capture validation is an unimplemented
`// TODO: Validate capture`, so no entity is resolved as captured, whatever
the recorded trail and entity set are. -/
def onLassoRelease (_lassoPoints : List Point) (_entities : List NumberEntity) :
    LassoReleaseResult :=
  { isLassoMode := false
    cursorMode := CursorMode.exploration
    lassoPoints := []
    capturedNumbers := [] }

/-- A closed square lasso with corners (0,0), (10,0), (10,10), (0,10). -/
def squareLasso : List Point := [⟨0, 0⟩, ⟨10, 0⟩, ⟨10, 10⟩, ⟨0, 10⟩]

/-- An entity whose `worldPosition` (5,5) lies strictly inside
`squareLasso`. -/
def innerEntity : NumberEntity := ⟨"e1", ⟨5, 5⟩⟩

/-- C1: evaluating the release handler at a concrete failing input — the
closed square lasso around an entity at (5,5).  `pointInPolygon` puts the
entity inside the polygon, yet the released lasso captures nothing: the
captured set is empty, not `{e ∈ E : pointInPolygon(e.worldPosition, P)}`. -/
theorem C1_release_captures_nothing :
    pointInPolygon innerEntity.worldPosition squareLasso = true ∧
    (onLassoRelease squareLasso [innerEntity]).capturedNumbers = [] ∧
    (onLassoRelease squareLasso [innerEntity]).isLassoMode = false := by
  refine ⟨?_, rfl, rfl⟩
  norm_num [pointInPolygon, innerEntity, squareLasso, List.range_succ]

/-! ## Lasso joystick steering (`src/components/MDRTerminalGrid.tsx`,
`onPanResponderMove`, `isLassoMode` branch) -/

/-- The component state written by the lasso branch of a move event. -/
structure LassoMoveResult where
  cursor : Point
  lassoPoints : List Point
deriving Repr, DecidableEq

/-- The `isLassoMode` branch of `onPanResponderMove`.  `joystickCenter` is
the initial touch `(x0, y0)`, `movePos` the current touch `(moveX, moveY)`;
`dist` is the source's `Math.sqrt(offsetX² + offsetY²)`, passed explicitly
with its defining property (see the file header).  Beyond the 8-pixel dead
zone the cursor moves along the joystick direction with the quadratic gain
`(min(dist/60, 1))² · 3`, clamped to `[10, screenWidth-10] ×
[10, screenHeight-130]`, and the new cursor position is appended to the
trail unconditionally; inside the dead zone nothing is written. -/
def lassoMoveStep (screenWidth screenHeight : ℚ) (joystickCenter movePos cursorPos : Point)
    (lassoPoints : List Point) (dist : ℚ) : LassoMoveResult :=
  let offsetX := movePos.x - joystickCenter.x
  let offsetY := movePos.y - joystickCenter.y
  let maxRadius : ℚ := 60
  let deadZone : ℚ := 8
  let normalizedDistance := min (dist / maxRadius) 1
  let speed := normalizedDistance * normalizedDistance * 3
  if dist > deadZone then
    let directionX := offsetX / dist
    let directionY := offsetY / dist
    let newCursorX := max 10 (min (screenWidth - 10) (cursorPos.x + directionX * speed))
    let newCursorY := max 10 (min (screenHeight - 130) (cursorPos.y + directionY * speed))
    { cursor := ⟨newCursorX, newCursorY⟩
      lassoPoints := lassoPoints ++ [⟨newCursorX, newCursorY⟩] }
  else
    { cursor := cursorPos, lassoPoints := lassoPoints }

/-- Squared distance between two points (`GameConfig.lasso.segmentLength = 3`
is the minimum trail-point spacing the spec refers to; closeness is compared
on squares). -/
def distSq (p q : Point) : ℚ := (p.x - q.x) ^ 2 + (p.y - q.y) ^ 2

/-- C7 counterexample: a barely-past-the-dead-zone joystick deflection.  The
touch sits at offset (6,8) from the joystick centre, so `dist = 10 > 8`
(witnessed by `10² = 6² + 8²`), the gain is `(10/60)²·3 = 1/12`, and the
point appended to the trail lies `1/12` pixel from the previously recorded
point — far closer than the 3-pixel minimum segment spacing, which the move
handler never checks: consecutive recorded points can be arbitrarily close. -/
theorem C7_no_minimum_spacing :
    (10 : ℚ) ^ 2 = 6 ^ 2 + 8 ^ 2 ∧
    (lassoMoveStep 400 800 ⟨0, 0⟩ ⟨6, 8⟩ ⟨100, 100⟩ [⟨100, 100⟩] 10).lassoPoints.length = 2 ∧
    distSq ((lassoMoveStep 400 800 ⟨0, 0⟩ ⟨6, 8⟩ ⟨100, 100⟩ [⟨100, 100⟩] 10).lassoPoints.getD 0 ⟨0, 0⟩)
        ((lassoMoveStep 400 800 ⟨0, 0⟩ ⟨6, 8⟩ ⟨100, 100⟩ [⟨100, 100⟩] 10).lassoPoints.getD 1 ⟨0, 0⟩)
      < 3 ^ 2 := by
  refine ⟨by norm_num, ?_, ?_⟩ <;>
    norm_num [lassoMoveStep, distSq, max_def, min_def]

/-- C7 (amended): while in lasso mode, every move event past the dead zone
appends the new world/screen cursor position to the trail unconditionally —
there is no minimum-segment-spacing coalescing, so the trail grows by
exactly one point per qualifying move (and an in-dead-zone move appends
nothing). -/
theorem C7_qualifying_move_appends (screenWidth screenHeight : ℚ)
    (joystickCenter movePos cursorPos : Point) (lassoPoints : List Point) (dist : ℚ)
    (h : dist > 8) :
    (lassoMoveStep screenWidth screenHeight joystickCenter movePos cursorPos lassoPoints dist).lassoPoints
      = lassoPoints ++
        [(lassoMoveStep screenWidth screenHeight joystickCenter movePos cursorPos lassoPoints dist).cursor] := by
  simp only [lassoMoveStep]
  rw [if_pos h]

/-- C7 witness: the amended statement evaluated at the dead-zone-clearing
deflection (6,8) with `dist = 10`. -/
theorem C7_qualifying_move_appends_witness :
    (lassoMoveStep 400 800 ⟨0, 0⟩ ⟨6, 8⟩ ⟨100, 100⟩ [⟨100, 100⟩] 10).lassoPoints
      = [⟨100, 100⟩] ++ [(lassoMoveStep 400 800 ⟨0, 0⟩ ⟨6, 8⟩ ⟨100, 100⟩ [⟨100, 100⟩] 10).cursor] :=
  C7_qualifying_move_appends 400 800 ⟨0, 0⟩ ⟨6, 8⟩ ⟨100, 100⟩ [⟨100, 100⟩] 10 (by norm_num)

/-! ## Cursor bounds on every update (C8)

Three update paths in `MDRTerminalGrid.tsx` clamp the written position:
the exploration move branch and the momentum tick to
`[20, screenWidth-20] × [20, screenHeight-130]`, the lasso joystick branch to
`[10, screenWidth-10] × [10, screenHeight-130]`.  The move handler of
`MDRInterface.tsx` instead writes the raw touch position. -/

/-- The exploration (non-lasso) branch of `onPanResponderMove` in
`MDRTerminalGrid.tsx`: velocity-boosted sensitivity applied to the gesture
delta, position clamped on write.  `gestureSpeed` is the source's
`Math.sqrt(vx² + vy²)`, passed explicitly. -/
def explorationMoveCursor (screenWidth screenHeight baseSensitivity : ℚ)
    (cursorPos : Point) (dx dy gestureSpeed : ℚ) : Point :=
  let velocityBoost := min (gestureSpeed / 500) 3
  let dynamicSensitivity := baseSensitivity * (1 + velocityBoost * 0.8)
  let directMultiplier := 0.2 + velocityBoost * 0.15
  let deltaX := dx * dynamicSensitivity * directMultiplier
  let deltaY := dy * dynamicSensitivity * directMultiplier
  ⟨max 20 (min (screenWidth - 20) (cursorPos.x + deltaX)),
   max 20 (min (screenHeight - 130) (cursorPos.y + deltaY))⟩

/-- The cursor position written by one momentum tick (`applyMomentum`):
current position plus the decayed velocity, clamped on write. -/
def momentumCursorUpdate (screenWidth screenHeight : ℚ) (cursorPos newVel : Point) : Point :=
  ⟨max 20 (min (screenWidth - 20) (cursorPos.x + newVel.x)),
   max 20 (min (screenHeight - 130) (cursorPos.y + newVel.y))⟩

/-- The move handler of `MDRInterface.tsx`:
`updateCursorPosition({ x: moveX, y: moveY })` — the raw touch position,
with no clamping. -/
def ifaceMoveCursor (movePos : Point) : Point := ⟨movePos.x, movePos.y⟩

/-- The playable rectangle inset by margin `m` on the left, right and top,
and by the 130-pixel chrome inset at the bottom, as the clamps use it. -/
def inPlayableBounds (m screenWidth screenHeight : ℚ) (p : Point) : Prop :=
  m ≤ p.x ∧ p.x ≤ screenWidth - m ∧ m ≤ p.y ∧ p.y ≤ screenHeight - 130

/-- C8 counterexample: a move event at touch position (5,5) handled by
`MDRInterface`'s responder writes the cursor to (5,5), outside the playable
rectangle for either margin the code uses (10 or 20), on a 400×800 screen. -/
theorem C8_iface_move_unclamped :
    ifaceMoveCursor ⟨5, 5⟩ = ⟨5, 5⟩ ∧
    ¬ inPlayableBounds 20 400 800 (ifaceMoveCursor ⟨5, 5⟩) ∧
    ¬ inPlayableBounds 10 400 800 (ifaceMoveCursor ⟨5, 5⟩) := by
  refine ⟨rfl, ?_, ?_⟩ <;> norm_num [ifaceMoveCursor, inPlayableBounds]

lemma clamp_mem {lo hi v : ℚ} (h : lo ≤ hi) :
    lo ≤ max lo (min hi v) ∧ max lo (min hi v) ≤ hi :=
  ⟨le_max_left _ _, max_le h (min_le_left _ _)⟩

/-- C8 (amended): every cursor write performed by `MDRTerminalGrid`'s own
handlers lands inside the playable rectangle — the exploration move and the
momentum tick within margin 20, the lasso joystick within margin 10
(provided the screen is at least 40×150, so the clamp intervals are
nonempty).  The `MDRInterface` move handler is the exception: it writes the
raw touch position (see the counterexample). -/
theorem C8_grid_updates_clamped (screenWidth screenHeight baseSensitivity : ℚ)
    (hw : 40 ≤ screenWidth) (hh : 150 ≤ screenHeight)
    (cursorPos newVel joystickCenter movePos : Point)
    (dx dy gestureSpeed : ℚ) (lassoPoints : List Point) (dist : ℚ) :
    inPlayableBounds 20 screenWidth screenHeight
      (explorationMoveCursor screenWidth screenHeight baseSensitivity cursorPos dx dy gestureSpeed) ∧
    inPlayableBounds 20 screenWidth screenHeight
      (momentumCursorUpdate screenWidth screenHeight cursorPos newVel) ∧
    (dist > 8 → inPlayableBounds 10 screenWidth screenHeight
      (lassoMoveStep screenWidth screenHeight joystickCenter movePos cursorPos lassoPoints dist).cursor) := by
  have hx20 : (20 : ℚ) ≤ screenWidth - 20 := by linarith
  have hy20 : (20 : ℚ) ≤ screenHeight - 130 := by linarith
  have hx10 : (10 : ℚ) ≤ screenWidth - 10 := by linarith
  have hy10 : (10 : ℚ) ≤ screenHeight - 130 := by linarith
  refine ⟨⟨(clamp_mem hx20).1, (clamp_mem hx20).2, (clamp_mem hy20).1, (clamp_mem hy20).2⟩,
    ⟨(clamp_mem hx20).1, (clamp_mem hx20).2, (clamp_mem hy20).1, (clamp_mem hy20).2⟩, ?_⟩
  intro hdist
  simp only [lassoMoveStep]
  rw [if_pos hdist]
  exact ⟨(clamp_mem hx10).1, (clamp_mem hx10).2, (clamp_mem hy10).1, (clamp_mem hy10).2⟩

/-- C8 witness: the amended statement on a 400×800 screen with concrete
gesture data. -/
theorem C8_grid_updates_clamped_witness :
    inPlayableBounds 20 400 800
      (explorationMoveCursor 400 800 8 ⟨50, 50⟩ 3 4 0) ∧
    inPlayableBounds 20 400 800
      (momentumCursorUpdate 400 800 ⟨50, 50⟩ ⟨7, -7⟩) ∧
    ((10 : ℚ) > 8 → inPlayableBounds 10 400 800
      (lassoMoveStep 400 800 ⟨0, 0⟩ ⟨6, 8⟩ ⟨50, 50⟩ [] 10).cursor) :=
  C8_grid_updates_clamped 400 800 8 (by norm_num) (by norm_num)
    ⟨50, 50⟩ ⟨7, -7⟩ ⟨0, 0⟩ ⟨6, 8⟩ 3 4 0 [] 10

/-! ## Spatial index (`src/systems/WorldSystem.ts`)

The spatial grid is a map from cell keys `"gx,gy"` (here `ℤ × ℤ`) to entity
lists; only the cells pre-created by `initializeSpatialGrid` — `0 ≤ gx <
⌈worldWidth/100⌉`, `0 ≤ gy < ⌈worldHeight/100⌉` — exist, and `push`/`splice`
on a missing cell is a no-op (`if (cell) …`). -/

/-- `spatialGridSize`, the spatial-partitioning cell size. -/
def spatialGridSize : ℚ := 100

/-- Number of spatial grid columns created by `initializeSpatialGrid`. -/
def spatialCols : ℤ := ⌈getWorldWidth / spatialGridSize⌉

/-- Number of spatial grid rows created by `initializeSpatialGrid`. -/
def spatialRows : ℤ := ⌈getWorldHeight / spatialGridSize⌉

/-- Whether `initializeSpatialGrid` created the cell, i.e. whether
`spatialGrid.get(cellKey)` is defined. -/
def cellInitialized (c : ℤ × ℤ) : Bool :=
  decide (0 ≤ c.1) && decide (c.1 < spatialCols) &&
  decide (0 ≤ c.2) && decide (c.2 < spatialRows)

/-- The spatial grid: entity list per cell key (missing cells and
initialized-but-empty cells both read as `[]`; `cellInitialized` tells the
push/remove operations apart). -/
abbrev SpatialGrid := ℤ × ℤ → List NumberEntity

/-- The grid with every cell empty, as `initializeSpatialGrid` leaves it. -/
def initialSpatialGrid : SpatialGrid := fun _ => []

/-- Replace one cell's list. -/
def gridSet (g : SpatialGrid) (c : ℤ × ℤ) (l : List NumberEntity) : SpatialGrid :=
  fun c' => if c' = c then l else g c'

/-- `cell.push(number)` guarded by `if (cell)`. -/
def gridPush (g : SpatialGrid) (c : ℤ × ℤ) (n : NumberEntity) : SpatialGrid :=
  if cellInitialized c then gridSet g c (g c ++ [n]) else g

/-- `cell.findIndex(n => n.id === number.id)` followed by `splice(index, 1)`:
remove the first entity with the given id, if any. -/
def removeFirstById (id : String) : List NumberEntity → List NumberEntity
  | [] => []
  | n :: ns => if n.id = id then ns else n :: removeFirstById id ns

/-- One cell's step of `removeFromSpatialGrid`, guarded by `if (cell)`. -/
def gridRemoveAt (g : SpatialGrid) (c : ℤ × ℤ) (id : String) : SpatialGrid :=
  if cellInitialized c then gridSet g c (removeFirstById id (g c)) else g

/-- The integer range `[a, a+1, …, b]` that a `for (let i = a; i <= b; i++)`
loop visits (empty when `b < a`). -/
def intRange (a b : ℤ) : List ℤ :=
  (List.range (b - a + 1).toNat).map (fun (i : ℕ) => a + (i : ℤ))

/-- `getSpatialCellsForNumber`: every spatial cell the entity's
`cellSize`-square footprint overlaps, `x`-major as the nested loops push
them. -/
def getSpatialCellsForNumber (n : NumberEntity) : List (ℤ × ℤ) :=
  let startX := ⌊n.worldPosition.x / spatialGridSize⌋
  let startY := ⌊n.worldPosition.y / spatialGridSize⌋
  let endX := ⌊(n.worldPosition.x + cellSize) / spatialGridSize⌋
  let endY := ⌊(n.worldPosition.y + cellSize) / spatialGridSize⌋
  (intRange startX endX).flatMap (fun gx => (intRange startY endY).map (fun gy => (gx, gy)))

/-- `removeFromSpatialGrid`: splice the entity's id out of every cell its
footprint overlaps. -/
def removeFromSpatialGrid (n : NumberEntity) (g : SpatialGrid) : SpatialGrid :=
  (getSpatialCellsForNumber n).foldl (fun g' c => gridRemoveAt g' c n.id) g

/-- `updateSpatialGrid`: remove from the old cells, then push into every
overlapped cell. -/
def updateSpatialGrid (n : NumberEntity) (g : SpatialGrid) : SpatialGrid :=
  (getSpatialCellsForNumber n).foldl (fun g' c => gridPush g' c n)
    (removeFromSpatialGrid n g)

/-- The spatial-grid mutations the `WorldSystem` entity operations perform:
`addNumber` and `updateNumberPosition` both call `updateSpatialGrid`;
`removeNumber` calls `removeFromSpatialGrid` on the stored entity. -/
inductive GridOp where
  | upsert (n : NumberEntity)
  | remove (n : NumberEntity)
deriving Repr

/-- Apply one operation to the spatial grid. -/
def applyGridOp (g : SpatialGrid) : GridOp → SpatialGrid
  | GridOp.upsert n => updateSpatialGrid n g
  | GridOp.remove n => removeFromSpatialGrid n g

/-- Apply a sequence of operations, oldest first. -/
def applyGridOps (g : SpatialGrid) (ops : List GridOp) : SpatialGrid :=
  ops.foldl applyGridOp g

/-- `worldToScreen` with the store's viewport and scale:
`world * scale + viewportOrigin`. -/
def worldToScreen (viewport : Rectangle) (scale : ℚ) (p : Point) : Point :=
  ⟨p.x * scale + viewport.x, p.y * scale + viewport.y⟩

/-- `isPointInViewport`: inclusive containment in the rectangle. -/
def isPointInViewport (p : Point) (vp : Rectangle) : Bool :=
  decide (vp.x ≤ p.x) && decide (p.x ≤ vp.x + vp.width) &&
  decide (vp.y ≤ p.y) && decide (p.y ≤ vp.y + vp.height)

/-- The 100-pixel culling margin `getVisibleNumbers` adds around the
viewport. -/
def expandViewport (vp : Rectangle) : Rectangle :=
  ⟨vp.x - 100, vp.y - 100, vp.width + 200, vp.height + 200⟩

/-- `getSpatialCellsInViewport`: the spatial cells the rectangle spans,
`x`-major. -/
def getSpatialCellsInViewport (vp : Rectangle) : List (ℤ × ℤ) :=
  let startX := ⌊vp.x / spatialGridSize⌋
  let startY := ⌊vp.y / spatialGridSize⌋
  let endX := ⌊(vp.x + vp.width) / spatialGridSize⌋
  let endY := ⌊(vp.y + vp.height) / spatialGridSize⌋
  (intRange startX endX).flatMap (fun gx => (intRange startY endY).map (fun gy => (gx, gy)))

/-- `getVisibleNumbers`: walk every spatial cell the expanded viewport
overlaps and push each entity of the cell whose screen position passes the
expanded-viewport containment test.  No deduplication is performed. -/
def getVisibleNumbers (g : SpatialGrid) (viewport : Rectangle) (scale : ℚ) :
    List NumberEntity :=
  let expandedViewport := expandViewport viewport
  (getSpatialCellsInViewport expandedViewport).flatMap fun c =>
    (g c).filter fun n =>
      isPointInViewport (worldToScreen viewport scale n.worldPosition) expandedViewport

/-- An entity at world position (90,90): its 24-pixel footprint straddles the
four spatial cells (0,0), (0,1), (1,0), (1,1). -/
def straddler : NumberEntity := ⟨"n0", ⟨90, 90⟩⟩

/-- C6 counterexample: after the single insert of `straddler`,
`getVisibleNumbers` over the viewport (0,0,10,10) at scale 1 returns the id
"n0" four times — once per overlapped spatial cell, with no deduplication —
so the result does not contain each inserted id at most once. -/
theorem C6_query_returns_duplicates :
    ((getVisibleNumbers (applyGridOps initialSpatialGrid [GridOp.upsert straddler])
        ⟨0, 0, 10, 10⟩ 1).countP (fun n => n.id == "n0")) = 4 ∧
    ¬ (((getVisibleNumbers (applyGridOps initialSpatialGrid [GridOp.upsert straddler])
        ⟨0, 0, 10, 10⟩ 1).countP (fun n => n.id == "n0")) ≤ 1) := by
  have hceil : (⌈(104 : ℚ) / 5⌉ : ℤ) = 21 := by
    rw [Int.ceil_eq_iff]
    norm_num
  constructor <;>
  · norm_num [getVisibleNumbers, applyGridOps, applyGridOp, updateSpatialGrid,
      removeFromSpatialGrid, getSpatialCellsForNumber, intRange, gridPush, gridRemoveAt,
      gridSet, cellInitialized, spatialCols, spatialRows, spatialGridSize, getWorldWidth,
      getWorldHeight, worldGridCols, worldGridRows, cellSize, cellSpacing,
      initialSpatialGrid, straddler, getSpatialCellsInViewport, expandViewport,
      worldToScreen, isPointInViewport, hceil]
    decide

/-! ### The per-cell multiplicity invariant behind the amended C6 -/

/-- Every cell's bucket holds at most one entity with any given id. -/
def gridInv (g : SpatialGrid) : Prop :=
  ∀ (c : ℤ × ℤ) (id : String), (g c).countP (fun n => n.id == id) ≤ 1

lemma countP_removeFirstById_le (p : NumberEntity → Bool) (id : String)
    (l : List NumberEntity) :
    (removeFirstById id l).countP p ≤ l.countP p := by
  induction l with
  | nil => simp [removeFirstById]
  | cons n ns ih =>
    simp only [removeFirstById]
    split_ifs with h
    · simp only [List.countP_cons]
      omega
    · simp only [List.countP_cons]
      omega

lemma countP_removeFirstById_self (id : String) (l : List NumberEntity)
    (h : l.countP (fun n => n.id == id) ≤ 1) :
    (removeFirstById id l).countP (fun n => n.id == id) = 0 := by
  induction l with
  | nil => simp [removeFirstById]
  | cons n ns ih =>
    rw [List.countP_cons] at h
    simp only [removeFirstById]
    split_ifs with hn
    · have he : (n.id == id) = true := beq_iff_eq.mpr hn
      simp only [he, if_true] at h
      omega
    · have he : (n.id == id) = false := beq_eq_false_iff_ne.mpr hn
      simp only [he, Bool.false_eq_true, if_false] at h
      rw [List.countP_cons]
      simp only [he, Bool.false_eq_true, if_false]
      have := ih (by omega)
      omega

lemma intRange_nodup (a b : ℤ) : (intRange a b).Nodup := by
  have h : Function.Injective (fun i : ℕ => a + (i : ℤ)) := by
    intro i j hij
    simp only [add_right_inj, Nat.cast_inj] at hij
    exact hij
  exact List.Nodup.map h (List.nodup_range _)

lemma spatialCellList_nodup (sx ex sy ey : ℤ) :
    ((intRange sx ex).flatMap (fun gx => (intRange sy ey).map (fun gy => (gx, gy)))).Nodup := by
  rw [List.nodup_flatMap]
  constructor
  · intro gx _
    exact List.Nodup.map (fun i j hij => by injection hij) (intRange_nodup sy ey)
  · refine List.Pairwise.imp ?_ (intRange_nodup sx ex)
    intro gx gx' hne
    intro p hp hp'
    simp only [Function.onFun, List.mem_map] at hp hp'
    obtain ⟨gy, _, rfl⟩ := hp
    obtain ⟨gy', _, h⟩ := hp'
    exact hne (congrArg Prod.fst h.symm)

lemma getSpatialCellsForNumber_nodup (n : NumberEntity) :
    (getSpatialCellsForNumber n).Nodup := by
  unfold getSpatialCellsForNumber
  exact spatialCellList_nodup _ _ _ _

lemma gridPush_apply_ne (g : SpatialGrid) (n : NumberEntity) {c c₀ : ℤ × ℤ}
    (h : c ≠ c₀) : gridPush g c₀ n c = g c := by
  unfold gridPush gridSet
  split_ifs <;> simp [h]

lemma gridPush_apply_self (g : SpatialGrid) (n : NumberEntity) (c : ℤ × ℤ) :
    gridPush g c n c = if cellInitialized c then g c ++ [n] else g c := by
  unfold gridPush gridSet
  split_ifs <;> simp

lemma gridRemoveAt_apply_ne (g : SpatialGrid) (id : String) {c c₀ : ℤ × ℤ}
    (h : c ≠ c₀) : gridRemoveAt g c₀ id c = g c := by
  unfold gridRemoveAt gridSet
  split_ifs <;> simp [h]

lemma gridRemoveAt_apply_self (g : SpatialGrid) (id : String) (c : ℤ × ℤ) :
    gridRemoveAt g c id c = if cellInitialized c then removeFirstById id (g c) else g c := by
  unfold gridRemoveAt gridSet
  split_ifs <;> simp

lemma foldl_gridPush_apply (n : NumberEntity) :
    ∀ (cells : List (ℤ × ℤ)), cells.Nodup → ∀ (g : SpatialGrid) (c : ℤ × ℤ),
    (cells.foldl (fun g' c' => gridPush g' c' n) g) c =
      if c ∈ cells ∧ cellInitialized c then g c ++ [n] else g c := by
  intro cells
  induction cells with
  | nil => intro _ g c; simp
  | cons c₀ rest ih =>
    intro hnd g c
    obtain ⟨hc₀, hrest⟩ := List.nodup_cons.mp hnd
    simp only [List.foldl_cons]
    rw [ih hrest]
    by_cases hmem : c ∈ rest
    · have hne : c ≠ c₀ := by rintro rfl; exact hc₀ hmem
      rw [gridPush_apply_ne g n hne]
      simp [hmem]
    · by_cases hceq : c = c₀
      · subst hceq
        rw [gridPush_apply_self]
        simp [hmem]
      · rw [gridPush_apply_ne g n hceq]
        simp [hmem, hceq]

lemma foldl_gridRemoveAt_apply (id : String) :
    ∀ (cells : List (ℤ × ℤ)), cells.Nodup → ∀ (g : SpatialGrid) (c : ℤ × ℤ),
    (cells.foldl (fun g' c' => gridRemoveAt g' c' id) g) c =
      if c ∈ cells ∧ cellInitialized c then removeFirstById id (g c) else g c := by
  intro cells
  induction cells with
  | nil => intro _ g c; simp
  | cons c₀ rest ih =>
    intro hnd g c
    obtain ⟨hc₀, hrest⟩ := List.nodup_cons.mp hnd
    simp only [List.foldl_cons]
    rw [ih hrest]
    by_cases hmem : c ∈ rest
    · have hne : c ≠ c₀ := by rintro rfl; exact hc₀ hmem
      rw [gridRemoveAt_apply_ne g id hne]
      simp [hmem]
    · by_cases hceq : c = c₀
      · subst hceq
        rw [gridRemoveAt_apply_self]
        simp [hmem]
      · rw [gridRemoveAt_apply_ne g id hceq]
        simp [hmem, hceq]

lemma removeFromSpatialGrid_apply (n : NumberEntity) (g : SpatialGrid) (c : ℤ × ℤ) :
    removeFromSpatialGrid n g c =
      if c ∈ getSpatialCellsForNumber n ∧ cellInitialized c
      then removeFirstById n.id (g c) else g c := by
  unfold removeFromSpatialGrid
  exact foldl_gridRemoveAt_apply n.id _ (getSpatialCellsForNumber_nodup n) g c

lemma gridInv_removeFromSpatialGrid (n : NumberEntity) (g : SpatialGrid)
    (h : gridInv g) : gridInv (removeFromSpatialGrid n g) := by
  intro c id
  rw [removeFromSpatialGrid_apply]
  split_ifs with hc
  · exact le_trans (countP_removeFirstById_le _ _ _) (h c id)
  · exact h c id

lemma gridInv_updateSpatialGrid (n : NumberEntity) (g : SpatialGrid)
    (h : gridInv g) : gridInv (updateSpatialGrid n g) := by
  intro c id
  have hrem : gridInv (removeFromSpatialGrid n g) := gridInv_removeFromSpatialGrid n g h
  unfold updateSpatialGrid
  rw [foldl_gridPush_apply n _ (getSpatialCellsForNumber_nodup n)
    (removeFromSpatialGrid n g) c]
  split_ifs with hc
  · rw [List.countP_append]
    by_cases hid : n.id = id
    · subst hid
      have h0 : ((removeFromSpatialGrid n g) c).countP (fun e => e.id == n.id) = 0 := by
        rw [removeFromSpatialGrid_apply, if_pos hc]
        exact countP_removeFirstById_self n.id (g c) (h c n.id)
      rw [h0]
      simp
    · have he : (n.id == id) = false := beq_eq_false_iff_ne.mpr hid
      have h1 : ([n] : List NumberEntity).countP (fun e => e.id == id) = 0 := by
        simp [he]
      rw [h1]
      have := hrem c id
      omega
  · exact hrem c id

/-- The per-cell invariant holds for every grid reachable from the freshly
initialized one by any sequence of insert/update/remove operations. -/
lemma gridInv_applyGridOps (ops : List GridOp) :
    gridInv (applyGridOps initialSpatialGrid ops) := by
  have base : gridInv initialSpatialGrid := fun c id => by simp [initialSpatialGrid]
  suffices h : ∀ (ops : List GridOp) (g : SpatialGrid), gridInv g →
      gridInv (applyGridOps g ops) from h ops _ base
  intro ops
  induction ops with
  | nil => intro g hg; exact hg
  | cons op rest ih =>
    intro g hg
    cases op with
    | upsert n => exact ih _ (gridInv_updateSpatialGrid n g hg)
    | remove n => exact ih _ (gridInv_removeFromSpatialGrid n g hg)

lemma countP_filter_le_countP (pid pass : NumberEntity → Bool) (l : List NumberEntity) :
    (l.filter pass).countP pid ≤ l.countP pid := by
  rw [List.countP_filter]
  exact List.countP_mono_left (fun a _ hpa => (Bool.and_eq_true _ _).mp hpa |>.1)

lemma countP_flatMap_filter_le (g : SpatialGrid) (pid pass : NumberEntity → Bool)
    (hinv : ∀ c, (g c).countP pid ≤ 1) (cells : List (ℤ × ℤ)) :
    ((cells.flatMap fun c => (g c).filter pass).countP pid)
      ≤ cells.countP (fun c => (g c).any pid) := by
  induction cells with
  | nil => simp
  | cons c rest ih =>
    rw [List.flatMap_cons, List.countP_append, List.countP_cons]
    have hfilter := countP_filter_le_countP pid pass (g c)
    by_cases hany : (g c).any pid
    · have h1 : (if (g c).any pid then 1 else 0) = 1 := by simp [hany]
      have h2 := hinv c
      omega
    · have h0 : (g c).countP pid = 0 := by
        rw [List.countP_eq_zero]
        intro a ha
        exact fun hpa => hany (List.any_eq_true.mpr ⟨a, ha, hpa⟩)
      have h1 : (if (g c).any pid then 1 else 0) = 0 := by simp [hany]
      omega

/-- C6 (amended): after any sequence of insert/update/remove operations on
the freshly initialized spatial grid, querying the visible entities returns
each entity id at most once per queried spatial cell whose bucket holds it —
in particular at most once per spatial cell the entity's footprint overlaps —
rather than at most once overall: within any single cell's bucket an id is
never duplicated, but an entity spanning several cells is returned once for
each of them. -/
theorem C6_query_at_most_once_per_cell (ops : List GridOp) (vp : Rectangle)
    (scale : ℚ) (id : String) :
    (getVisibleNumbers (applyGridOps initialSpatialGrid ops) vp scale).countP
        (fun n => n.id == id)
      ≤ (getSpatialCellsInViewport (expandViewport vp)).countP
          (fun c => ((applyGridOps initialSpatialGrid ops) c).any (fun n => n.id == id)) := by
  have hinv := gridInv_applyGridOps ops
  unfold getVisibleNumbers
  exact countP_flatMap_filter_le _ _ _ (fun c => hinv c id) _

/-! ## Per-cell jitter (`src/components/MDRTerminalGrid.tsx`,
`generateJitteryGrid` and `getJitterOffset`)

JavaScript's `^` converts both operands to 32-bit two's-complement integers
and XORs them; `Math.sin`/`Math.cos`/`Math.PI` are an abstract fixed host
interpretation (`HostMath`); `%` on numbers is the truncated-division
remainder. -/

/-- `ToUint32`: the operand reduced into `[0, 2³²)`. -/
def toUint32 (n : ℤ) : ℕ := (n % 4294967296).toNat

/-- `ToInt32`: the operand reduced into `[-2³¹, 2³¹)`. -/
def toInt32 (n : ℤ) : ℤ :=
  let u := toUint32 n
  if u < 2147483648 then (u : ℤ) else (u : ℤ) - 4294967296

/-- JavaScript's `^` on numbers: bitwise XOR of the 32-bit operand images,
read back as a signed 32-bit integer. -/
def jsXor (a b : ℤ) : ℤ := toInt32 ((Nat.xor (toUint32 a) (toUint32 b) : ℕ) : ℤ)

/-- Truncation toward zero, as JavaScript's `%` uses. -/
def jsTruncQ (q : ℚ) : ℤ := if 0 ≤ q then ⌊q⌋ else ⌈q⌉

/-- JavaScript's `%` on numbers: `a - b * trunc(a / b)`. -/
def jsFmod (a b : ℚ) : ℚ := a - b * (jsTruncQ (a / b) : ℚ)

/-- The host's transcendental functions and `Math.PI * 2`, as an abstract
but fixed interpretation over the (dyadic-rational) JS numbers. -/
structure HostMath where
  sin : ℚ → ℚ
  cos : ℚ → ℚ
  twoPi : ℚ

/-- One cell record of the grid `generateJitteryGrid` builds. -/
structure GridCell where
  digit : ℕ
  baseX : ℚ
  baseY : ℚ
  jitterType : ℕ
  jitterPhase : ℚ
deriving Repr, DecidableEq

/-- The body of `generateJitteryGrid`'s inner loop: the cell record computed
for grid position `(col, row)` — digit and jitter characteristics are hashed
from the position alone, the base position from the configured cell size. -/
def cellParams (M : HostMath) (cellSizeCfg cellHeightCfg : ℚ) (col row : ℕ) : GridCell :=
  let worldX : ℤ := col
  let worldY : ℤ := row
  let digitSeed := jsXor (worldX * 73856093) (worldY * 19349663)
  let digit := digitSeed.natAbs % 10
  let baseX := (col : ℚ) * cellSizeCfg + cellSizeCfg / 2
  let baseY := (row : ℚ) * cellHeightCfg + cellHeightCfg / 2
  let jitterSeed := jsXor (worldX * 12345) (worldY * 67890)
  let jitterType := jitterSeed.natAbs % 100
  let jitterPhase := jsFmod ((jitterSeed.natAbs : ℚ) * 0.01) M.twoPi
  ⟨digit, baseX, baseY, jitterType, jitterPhase⟩

/-- `generateJitteryGrid`: the row-major grid of cell records for the given
dimensions. -/
def generateJitteryGrid (M : HostMath) (cellSizeCfg cellHeightCfg : ℚ)
    (rows cols : ℕ) : List (List GridCell) :=
  (List.range rows).map fun row =>
    (List.range cols).map fun col => cellParams M cellSizeCfg cellHeightCfg col row

/-- The jitter-intensity preset selected by `config.jitter.intensity`
(`JITTER_PRESETS`). -/
inductive JitterIntensity where
  | subtle
  | moderate
  | dramatic
  | extreme
deriving Repr, DecidableEq

/-- The preset's multiplier. -/
def intensityMultiplier : JitterIntensity → ℚ
  | JitterIntensity.subtle => 0.55
  | JitterIntensity.moderate => 0.63
  | JitterIntensity.dramatic => 0.75
  | JitterIntensity.extreme => 1

/-- The tuning store's `config.jitter`. -/
structure JitterConfig where
  enableJitter : Bool
  intensity : JitterIntensity
  staticPercentage : ℚ
  extremePercentage : ℚ
  strongPercentage : ℚ
deriving Repr, DecidableEq

/-- The `{x, y, opacity}` record `getJitterOffset` returns. -/
structure JitterOffset where
  x : ℚ
  y : ℚ
  opacity : ℚ
deriving Repr, DecidableEq

/-- `getJitterOffset`: the pure jitter displacement of a cell, from its
hashed jitter type and phase, the global time and the jitter config. -/
def getJitterOffset (M : HostMath) (config : JitterConfig) (globalTime : ℚ)
    (jitterType : ℕ) (jitterPhase : ℚ) : JitterOffset :=
  if !config.enableJitter then ⟨0, 0, 1⟩
  else
    let time := globalTime * 0.1
    let intensityMult := intensityMultiplier config.intensity
    let staticThreshold := config.staticPercentage
    let extremeThreshold := staticThreshold + config.extremePercentage
    let strongThreshold := extremeThreshold + config.strongPercentage
    if (jitterType : ℚ) < staticThreshold then ⟨0, 0, 1⟩
    else if (jitterType : ℚ) < extremeThreshold then
      ⟨M.sin (time * 4 + jitterPhase) * (15 * intensityMult),
       M.cos (time * 3.5 + jitterPhase) * (12 * intensityMult), 1⟩
    else if (jitterType : ℚ) < strongThreshold then
      let direction := jitterType % 3
      if direction = 0 then
        ⟨M.sin (time * 2.5 + jitterPhase) * (8 * intensityMult), 0, 1⟩
      else if direction = 1 then
        ⟨0, M.sin (time * 2.2 + jitterPhase) * (6 * intensityMult), 1⟩
      else
        ⟨M.sin (time * 2 + jitterPhase) * (5 * intensityMult),
         M.cos (time * 1.8 + jitterPhase) * (4 * intensityMult), 1⟩
    else
      ⟨M.sin (time * 1.5 + jitterPhase) * (3 * intensityMult),
       M.cos (time * 1.2 + jitterPhase) * (2.5 * intensityMult), 1⟩

/-- The fallback cell used when indexing out of bounds. -/
def fallbackCell : GridCell := ⟨0, 0, 0, 0, 0⟩

/-- In-bounds lookup into the generated grid is the per-position cell
record — independent of the grid dimensions. -/
lemma generateJitteryGrid_lookup (M : HostMath) (cellSizeCfg cellHeightCfg : ℚ)
    (rows cols row col : ℕ) (hr : row < rows) (hc : col < cols) :
    ((generateJitteryGrid M cellSizeCfg cellHeightCfg rows cols).getD row []).getD
        col fallbackCell
      = cellParams M cellSizeCfg cellHeightCfg col row := by
  have hrow : (generateJitteryGrid M cellSizeCfg cellHeightCfg rows cols).getD row []
      = (List.range cols).map (fun c => cellParams M cellSizeCfg cellHeightCfg c row) := by
    rw [List.getD_eq_getElem _ _ (by simpa [generateJitteryGrid] using hr)]
    simp [generateJitteryGrid]
  rw [hrow, List.getD_eq_getElem _ _ (by simpa using hc)]
  simp

/-- C9: the per-cell jitter is a pure deterministic function of the cell's
grid position, the global time and the jitter configuration: two grid
generations with the same cell-size configuration (even with different grid
dimensions) produce identical cell records at a common position, and the
resulting digit and jitter offset agree — there is no hidden randomness in
the jitter path. -/
theorem C9_jitter_deterministic (M : HostMath) (config : JitterConfig)
    (globalTime cellSizeCfg cellHeightCfg : ℚ)
    (rows₁ cols₁ rows₂ cols₂ row col : ℕ)
    (h1r : row < rows₁) (h1c : col < cols₁) (h2r : row < rows₂) (h2c : col < cols₂) :
    ((generateJitteryGrid M cellSizeCfg cellHeightCfg rows₁ cols₁).getD row []).getD
        col fallbackCell
      = ((generateJitteryGrid M cellSizeCfg cellHeightCfg rows₂ cols₂).getD row []).getD
        col fallbackCell ∧
    getJitterOffset M config globalTime
        (((generateJitteryGrid M cellSizeCfg cellHeightCfg rows₁ cols₁).getD row []).getD
          col fallbackCell).jitterType
        (((generateJitteryGrid M cellSizeCfg cellHeightCfg rows₁ cols₁).getD row []).getD
          col fallbackCell).jitterPhase
      = getJitterOffset M config globalTime
        (((generateJitteryGrid M cellSizeCfg cellHeightCfg rows₂ cols₂).getD row []).getD
          col fallbackCell).jitterType
        (((generateJitteryGrid M cellSizeCfg cellHeightCfg rows₂ cols₂).getD row []).getD
          col fallbackCell).jitterPhase := by
  rw [generateJitteryGrid_lookup M cellSizeCfg cellHeightCfg rows₁ cols₁ row col h1r h1c,
    generateJitteryGrid_lookup M cellSizeCfg cellHeightCfg rows₂ cols₂ row col h2r h2c]
  exact ⟨rfl, rfl⟩

/-- A concrete host interpretation for the witness. -/
def witnessHostMath : HostMath := ⟨fun q => q, fun q => 1 - q, 628 / 100⟩

/-- The default tuning-store jitter configuration. -/
def witnessJitterConfig : JitterConfig := ⟨true, JitterIntensity.dramatic, 5, 15, 30⟩

/-- C9 witness: determinism instantiated at position (1,1) across a 2×2 and
a 3×4 grid generation with the default 42-pixel cells. -/
theorem C9_jitter_deterministic_witness :
    ((generateJitteryGrid witnessHostMath 42 42 2 2).getD 1 []).getD 1 fallbackCell
      = ((generateJitteryGrid witnessHostMath 42 42 3 4).getD 1 []).getD 1 fallbackCell :=
  (C9_jitter_deterministic witnessHostMath witnessJitterConfig 0 42 42 2 2 3 4 1 1
    (by decide) (by decide) (by decide) (by decide)).1

end MDR
